import Mathlib

/-!
Shallow embedding of the shipping-service (TypeScript, `src/index.ts` plus the
MQTT notification-publisher variant) and proofs of the specification claims.

Conventions of the embedding:
  * `randomUUID()` draws are passed in as explicit string parameters
    (`msgUuid`, `tidUuid`, `shipUuid`, ...): the code treats them as opaque
    fresh tokens and never inspects them.
  * `new Date().toISOString()` timestamps are passed in as explicit string
    parameters (`now`, ...).
  * `Date.parse` is modelled by an abstract predicate `dateParses : String → Bool`
    (`dateParses s = true` iff `Number.isNaN(Date.parse(s))` is `false`);
    every claim about the consumer holds for an arbitrary such predicate.
  * `JSON.parse` is modelled by an abstract partial function
    `jsonParse : String → Option Json` (`none` = the parse throws).
  * The JavaScript `Map<string, Shipment>` is modelled as an association list
    in insertion order: `set` replaces in place on an existing key and appends
    a new key at the end, `get` looks the key up, `values()` is `map (·.2)`.
-/

set_option autoImplicit false

/-- JSON values, the possible results of `JSON.parse`. -/
inductive Json where
  | null
  | bool (b : Bool)
  | num (n : Int)
  | str (s : String)
  | arr (elems : List Json)
  | obj (fields : List (String × Json))

/-- Property read `o[key]` on a parsed JSON value: only objects have own
properties; with duplicate keys `JSON.parse` keeps the last binding. -/
def jsGetField (j : Json) (key : String) : Option Json :=
  match j with
  | .obj fields => (fields.reverse.find? (fun p => p.1 == key)).map (fun p => p.2)
  | _ => none

/-- Shipment status union from `types.ts`. -/
inductive ShipmentStatus where
  | CREATED
  | IN_TRANSIT
  | DELIVERED
  | DELAYED
  | CANCELLED
deriving DecidableEq, Repr

/-- The `Shipment` record from `types.ts`; `cancelledAt` is the optional field. -/
structure Shipment where
  shipmentId : String
  orderId : String
  carrier : String
  trackingNumber : String
  status : ShipmentStatus
  cancelledAt : Option String := none
deriving DecidableEq, Repr

/-- The in-memory `Map<string, Shipment>` in insertion order. -/
abbrev ShipmentStore := List (String × Shipment)

/-- Map lookup, `shipments.get(shipmentId)`. -/
def storeGet : ShipmentStore → String → Option Shipment
  | [], _ => none
  | (k', v) :: rest, k => if k' == k then some v else storeGet rest k

/-- Map update, `shipments.set(shipmentId, shipment)`: replace in place when the
key exists (keys are unique in a JS Map), append at the end when it is new. -/
def storeSet : ShipmentStore → String → Shipment → ShipmentStore
  | [], k, v => [(k, v)]
  | (k', v') :: rest, k, v =>
      if k' == k then (k, v) :: rest else (k', v') :: storeSet rest k v

/-- JavaScript truthiness fallback `s || d` for strings: the empty string is
falsy, every other string is truthy. -/
def jsOr (s d : String) : String :=
  if s = "" then d else s

/-- JavaScript fallback `x || d` where `x` is an optional string
(`undefined || d = d`, `"" || d = d`). -/
def jsOrOpt (o : Option String) (d : String) : String :=
  match o with
  | some s => jsOr s d
  | none => d

/-- The derivation `makeTrackingNumber`: the literal `TRK-` followed by the
shipmentId with every hyphen removed (the global-regex replace), sliced to the
first 12 characters and uppercased.  Removing the hyphens is a character
filter, `slice(0, 12)` is `take 12`, `toUpperCase` is `map Char.toUpper`
(the inputs are ASCII). -/
def makeTrackingNumber (shipmentId : String) : String :=
  "TRK-" ++ String.mk (((shipmentId.data.filter (fun c => c != '-')).take 12).map Char.toUpper)

/-- The view projection `toShipmentView`: copies the five public fields and
drops `cancelledAt`. -/
def toShipmentView (shipment : Shipment) : Shipment :=
  { shipmentId := shipment.shipmentId
    orderId := shipment.orderId
    carrier := shipment.carrier
    trackingNumber := shipment.trackingNumber
    status := shipment.status
    cancelledAt := none }

/-- The synthesized record `buildDefaultShipment` used when a shipmentId is
absent from the store. -/
def buildDefaultShipment (shipmentId : String) : Shipment :=
  { shipmentId := shipmentId
    orderId := "order-" ++ shipmentId
    carrier := "ACME_SHIP"
    trackingNumber := makeTrackingNumber shipmentId
    status := ShipmentStatus.IN_TRANSIT
    cancelledAt := none }

/-- Inbound `DispatchCommandEvent` from `types.ts`. -/
structure DispatchCommandEvent where
  messageId : String
  requestId : String
  orderId : String
  carrier : String
  requestedAt : String
deriving DecidableEq, Repr

/-- Reply status union from `types.ts`. -/
inductive ReplyStatus where
  | ACCEPTED
  | REJECTED
  | PARTIAL
deriving DecidableEq, Repr

/-- Outbound `FulfillmentReplyEvent` from `types.ts`; `trackingId` and
`rejectionReason` are the optional fields. -/
structure FulfillmentReplyEvent where
  messageId : String
  requestId : String
  orderId : String
  status : ReplyStatus
  repliedAt : String
  trackingId : Option String := none
  rejectionReason : Option String := none
deriving DecidableEq, Repr

/-- Check `typeof j[key] === 'string'`. -/
def isStringField (j : Json) (key : String) : Bool :=
  match jsGetField j key with
  | some (.str _) => true
  | _ => false

/-- The structural guard `isDispatchCommandEvent`: the payload must be a
non-null non-array object and all five fields must be strings. -/
def isDispatchCommandEvent (j : Json) : Bool :=
  match j with
  | .obj _ =>
      isStringField j "messageId" &&
      isStringField j "requestId" &&
      isStringField j "orderId" &&
      isStringField j "carrier" &&
      isStringField j "requestedAt"
  | _ => false

/-- Read a string property of the payload (the guard has established it is a
string; on any other shape this yields `""`, which the guarded code never
relies on). -/
def jsStringField (j : Json) (key : String) : String :=
  match jsGetField j key with
  | some (.str s) => s
  | _ => ""

/-- The payload viewed as a `DispatchCommandEvent` (`const command = payload`). -/
def toDispatchCommand (j : Json) : DispatchCommandEvent :=
  { messageId := jsStringField j "messageId"
    requestId := jsStringField j "requestId"
    orderId := jsStringField j "orderId"
    carrier := jsStringField j "carrier"
    requestedAt := jsStringField j "requestedAt" }

/-- The decision function `buildFulfillmentReply`.  `dateParses` models the
check `Number.isNaN(Date.parse(requestedAt))` (`dateParses = true` means the
timestamp parses); `msgUuid` is the `randomUUID()` drawn for the reply's
messageId, `tidUuid` the one drawn for the trackingId on acceptance, `now` the
`new Date().toISOString()` timestamp. -/
def buildFulfillmentReply (dateParses : String → Bool) (msgUuid tidUuid now : String)
    (command : DispatchCommandEvent) : FulfillmentReplyEvent :=
  if dateParses command.requestedAt = false then
    { messageId := msgUuid
      requestId := command.requestId
      orderId := command.orderId
      status := ReplyStatus.REJECTED
      repliedAt := now
      trackingId := none
      rejectionReason := some "Invalid requestedAt" }
  else
    { messageId := msgUuid
      requestId := command.requestId
      orderId := command.orderId
      status := ReplyStatus.ACCEPTED
      repliedAt := now
      trackingId := some (makeTrackingNumber tidUuid)
      rejectionReason := none }

/-- Result of one run of the consumer's `eachMessage` handler: the shipment
store afterwards and the list of `(key, reply)` messages published to the
fulfillment-reply topic. -/
structure ConsumerOutput where
  shipments : ShipmentStore
  replies : List (String × FulfillmentReplyEvent)
deriving DecidableEq, Repr

/-- The consumer's `eachMessage` handler.  `value` is `message.value`
(`none` = a message with no value); `jsonParse` models `JSON.parse`
(`none` = the parse throws); `shipUuid` is the `randomUUID()` drawn for a newly
created shipment's id. -/
def dispatchEachMessage (dateParses : String → Bool) (jsonParse : String → Option Json)
    (msgUuid tidUuid shipUuid now : String)
    (store : ShipmentStore) (value : Option String) : ConsumerOutput :=
  match value with
  | none => { shipments := store, replies := [] }
  | some raw =>
    match jsonParse raw with
    | none => { shipments := store, replies := [] }
    | some payload =>
      if isDispatchCommandEvent payload then
        let command := toDispatchCommand payload
        let reply := buildFulfillmentReply dateParses msgUuid tidUuid now command
        let newStore :=
          if reply.status = ReplyStatus.ACCEPTED then
            storeSet store shipUuid
              { shipmentId := shipUuid
                orderId := command.orderId
                carrier := jsOr command.carrier "ACME_SHIP"
                trackingNumber := jsOrOpt reply.trackingId (makeTrackingNumber shipUuid)
                status := ShipmentStatus.CREATED
                cancelledAt := none }
          else store
        { shipments := newStore, replies := [(command.orderId, reply)] }
      else { shipments := store, replies := [] }

/-- An HTTP response carrying a status code and either a shipment view or an
error object `{error}`. -/
structure HttpResponse where
  status : Nat
  view : Option Shipment := none
  error : Option String := none
deriving DecidableEq, Repr

/-- A request body as seen by the `POST /shipments` route: either the JSON
middleware rejected it as unparsable, or it parsed to a JSON value. -/
inductive HttpBody where
  | unparsable
  | parsed (j : Json)

/-- JavaScript `String.prototype.trim`: strip whitespace from both ends
(written over the character list so that it evaluates by reduction). -/
def jsTrim (s : String) : String :=
  String.mk (((s.data.dropWhile Char.isWhitespace).reverse.dropWhile Char.isWhitespace).reverse)

/-- Field extraction of the create route:
`typeof payload.x === 'string' ? payload.x.trim() : ''`.  Reading a property of
a non-object (after `req.body || {}`) yields `undefined`, hence `''`. -/
def jsStringOrEmpty (j : Json) (key : String) : String :=
  match jsGetField j key with
  | some (.str s) => jsTrim s
  | _ => ""

/-- The `POST /shipments` route.  The `unparsable` arm is the composed
behaviour of the `express.json` body-parsing middleware (library code, per the
spec: an unparsable body yields a 400 with an error and never reaches the
handler, whose own catch clause replies 400 in the same way). -/
def postShipments (shipUuid : String) (store : ShipmentStore) (body : HttpBody) :
    HttpResponse × ShipmentStore :=
  match body with
  | .unparsable => ({ status := 400, error := some "Invalid request body" }, store)
  | .parsed j =>
    let orderId := jsStringOrEmpty j "orderId"
    let destinationPostalCode := jsStringOrEmpty j "destinationPostalCode"
    if orderId = "" then
      ({ status := 400, error := some "orderId must be a non-empty string" }, store)
    else if destinationPostalCode = "" then
      ({ status := 400, error := some "destinationPostalCode must be a non-empty string" }, store)
    else
      let shipment : Shipment :=
        { shipmentId := shipUuid
          orderId := orderId
          carrier := "ACME_SHIP"
          trackingNumber := makeTrackingNumber shipUuid
          status := ShipmentStatus.CREATED
          cancelledAt := none }
      ({ status := 201, view := some (toShipmentView shipment) }, storeSet store shipUuid shipment)

/-- The `GET /shipments/:shipmentId` route: the stored record or the
synthesized default, always 200. -/
def getShipmentById (store : ShipmentStore) (shipmentId : String) : Nat × Shipment :=
  let shipment :=
    match storeGet store shipmentId with
    | some sh => sh
    | none => buildDefaultShipment shipmentId
  (200, toShipmentView shipment)

/-- The `GET /shipments` route.  `orderIdQuery` is the `orderId` query
parameter when it is a string (`none` = absent); `placeholderUuid` and
`trackUuid` are the two `randomUUID()` draws of the synthesized placeholder. -/
def listShipments (placeholderUuid trackUuid : String) (store : ShipmentStore)
    (orderIdQuery : Option String) : Nat × List Shipment :=
  let list := store.map (fun p => p.2)
  let list :=
    if list.length = 0 then
      [{ shipmentId := placeholderUuid
         orderId := jsOrOpt orderIdQuery "order-default"
         carrier := "ACME_SHIP"
         trackingNumber := makeTrackingNumber trackUuid
         status := ShipmentStatus.IN_TRANSIT
         cancelledAt := none }]
    else list
  let filtered :=
    match orderIdQuery with
    | some oid => if oid = "" then list else list.filter (fun sh => sh.orderId == oid)
    | none => list
  (200, filtered.map toShipmentView)

/-- The `POST /shipments/:shipmentId/cancel` route: take the stored record or
the synthesized default, force status CANCELLED, stamp `cancelledAt := now`,
store it back and return its view with 200. -/
def cancelShipment (now : String) (store : ShipmentStore) (shipmentId : String) :
    HttpResponse × ShipmentStore :=
  let existing :=
    match storeGet store shipmentId with
    | some sh => sh
    | none => buildDefaultShipment shipmentId
  let cancelled : Shipment :=
    { existing with status := ShipmentStatus.CANCELLED, cancelledAt := some now }
  ({ status := 200, view := some (toShipmentView cancelled) }, storeSet store shipmentId cancelled)

namespace AnalyticsPublisher

/-!
Model of `publishAnalyticsNotification` in the MQTT variant: a fresh per-call
connection, a `completed` one-shot flag, and a `done` guard called from each of
the three terminating edges (publish acknowledgment, connect error, timeout).
The asynchronous edges are modelled as an explicit sequence of events fired
against the call's state; the real `once`-registered listeners fire each edge
at most once, but the guard is proved safe for any sequence.
-/

/-- A terminating edge of one publish attempt: the publish callback (with an
optional transport error), the connect-error listener, or the 1500 ms timer. -/
inductive PublishEdge where
  | publishAck (error : Option String)
  | connectError (message : String)
  | timeoutFired

/-- Per-call state: the `completed` one-shot flag, how many times
`client.end(true)` has run, and the error log. -/
structure PublishState where
  completed : Bool
  teardowns : Nat
  logs : List String
deriving DecidableEq, Repr

/-- State at the start of a publish attempt. -/
def initialState : PublishState :=
  { completed := false, teardowns := 0, logs := [] }

/-- The guard `done`: return immediately when already completed, otherwise set
the flag and tear the connection down (`client.end(true)`). -/
def done (st : PublishState) : PublishState :=
  if st.completed then st
  else { st with completed := true, teardowns := st.teardowns + 1 }

/-- Effect of one edge firing: the publish and connect-error edges log their
error message, then every edge runs the `done` guard. -/
def handleEdge (st : PublishState) : PublishEdge → PublishState
  | .publishAck err =>
      done { st with logs := match err with | some m => st.logs ++ [m] | none => st.logs }
  | .connectError m => done { st with logs := st.logs ++ [m] }
  | .timeoutFired => done st

/-- One publish attempt observed through the edges that fire, in order.  The
function's caller-visible result is `()` (the JS function returns `void` and
never throws); the final `PublishState` records the teardown count and logs. -/
def publishAnalyticsNotification (edges : List PublishEdge) : Unit × PublishState :=
  ((), edges.foldl handleEdge initialState)

end AnalyticsPublisher

/-- Code point of an uppercase hexadecimal digit, 0-9 or A-F (spec-side
predicate for the documented tracking-number pattern). -/
def isUpperHexChar (c : Char) : Bool :=
  (48 ≤ c.toNat && c.toNat ≤ 57) || (65 ≤ c.toNat && c.toNat ≤ 70)

/-- Code point of a lowercase hexadecimal digit, 0-9 or a-f (the alphabet of a
canonical `randomUUID()` result besides the hyphens). -/
def isLowerHexChar (c : Char) : Bool :=
  (48 ≤ c.toNat && c.toNat ≤ 57) || (97 ≤ c.toNat && c.toNat ≤ 102)

/-- The documented pattern: the literal `TRK-` followed by exactly 12 uppercase
hexadecimal characters (spec-side predicate). -/
def isTrkPattern (s : String) : Bool :=
  match s.data with
  | 'T' :: 'R' :: 'K' :: '-' :: rest => rest.length == 12 && rest.all isUpperHexChar
  | _ => false

/-- Shape of a `randomUUID()` result as far as `makeTrackingNumber` is
concerned: hyphens and lowercase hexadecimal digits only, with at least 12
non-hyphen characters (a canonical UUID has exactly 32). -/
def UuidLike (s : String) : Prop :=
  (∀ c ∈ s.data, c = '-' ∨ isLowerHexChar c = true) ∧
  12 ≤ (s.data.filter (fun c => c != '-')).length

/-!
Helper lemmas shared by the claim theorems.
-/

theorem storeGet_storeSet_self (m : ShipmentStore) (k : String) (v : Shipment) :
    storeGet (storeSet m k v) k = some v := by
  induction m with
  | nil => simp [storeSet, storeGet]
  | cons hd tl ih =>
    obtain ⟨k', v'⟩ := hd
    by_cases h : k' == k
    · simp [storeSet, h, storeGet]
    · simp [storeSet, h, storeGet, ih]

theorem storeSet_of_storeGet_none (m : ShipmentStore) (k : String) (v : Shipment)
    (h : storeGet m k = none) : storeSet m k v = m ++ [(k, v)] := by
  induction m with
  | nil => simp [storeSet]
  | cons hd tl ih =>
    obtain ⟨k', v'⟩ := hd
    by_cases hk : k' == k
    · simp [storeGet, hk] at h
    · simp only [storeGet, hk, if_neg] at h
      simp [storeSet, hk, ih h]

theorem makeTrackingNumber_ne_empty (s : String) : makeTrackingNumber s ≠ "" := by
  intro h
  have h2 := congrArg String.length h
  rw [makeTrackingNumber, String.length_append] at h2
  simp [String.length] at h2

theorem hexupper_aux : ∀ n : Nat, n < 128 → isLowerHexChar (Char.ofNat n) = true →
    isUpperHexChar (Char.ofNat n).toUpper = true := by decide

theorem toUpper_lower_hex (c : Char) (h : isLowerHexChar c = true) :
    isUpperHexChar c.toUpper = true := by
  have hb : c.toNat < 128 := by
    simp only [isLowerHexChar, Bool.or_eq_true, Bool.and_eq_true, decide_eq_true_eq] at h
    omega
  have h2 := hexupper_aux c.toNat hb
  rw [Char.ofNat_toNat c] at h2
  exact h2 h

theorem isTrkPattern_makeTrackingNumber (s : String) (h : UuidLike s) :
    isTrkPattern (makeTrackingNumber s) = true := by
  obtain ⟨hchars, hlen⟩ := h
  have hdata : (makeTrackingNumber s).data =
      'T' :: 'R' :: 'K' :: '-' ::
        ((s.data.filter (fun c => c != '-')).take 12).map Char.toUpper := by
    simp [makeTrackingNumber]
  rw [isTrkPattern, hdata]
  simp only [Bool.and_eq_true, beq_iff_eq, List.length_map, List.length_take, List.all_eq_true]
  constructor
  · omega
  · intro c hc
    obtain ⟨c', hc', rfl⟩ := List.mem_map.mp hc
    have hmem := List.mem_of_mem_take hc'
    have hfil := List.mem_filter.mp hmem
    rcases hchars c' hfil.1 with hdash | hhex
    · simp [hdash] at hfil
    · exact toUpper_lower_hex c' hhex

namespace AnalyticsPublisher

theorem done_completed (st : PublishState) : (done st).completed = true := by
  unfold done
  split
  · assumption
  · rfl

theorem handleEdge_completed (st : PublishState) (e : PublishEdge) :
    (handleEdge st e).completed = true := by
  cases e <;> exact done_completed _

theorem handleEdge_teardowns (st : PublishState) (e : PublishEdge) :
    (handleEdge st e).teardowns = if st.completed then st.teardowns else st.teardowns + 1 := by
  cases e <;> simp only [handleEdge, done] <;> split <;> simp_all

theorem foldl_handleEdge_frozen (edges : List PublishEdge) (st : PublishState)
    (h : st.completed = true) :
    (edges.foldl handleEdge st).completed = true ∧
      (edges.foldl handleEdge st).teardowns = st.teardowns := by
  induction edges generalizing st with
  | nil => exact ⟨h, rfl⟩
  | cons e rest ih =>
    rw [List.foldl_cons]
    have h1 := handleEdge_completed st e
    have h2 := handleEdge_teardowns st e
    have h3 := ih (handleEdge st e) h1
    exact ⟨h3.1, by rw [h3.2, h2, if_pos h]⟩

end AnalyticsPublisher

/-- Claim C2: for every structurally valid DispatchCommandEvent whose requestedAt
parses, the consumer creates exactly one new shipment (status CREATED, the
command's orderId, the command's carrier or `ACME_SHIP` when empty) and emits
exactly one ACCEPTED reply whose trackingId equals the created shipment's
trackingNumber and whose requestId equals the command's requestId, published
keyed by the command's orderId. -/
theorem dispatch_accepted_spec
    (dateParses : String → Bool) (jsonParse : String → Option Json)
    (msgUuid tidUuid shipUuid now raw : String) (j : Json) (store : ShipmentStore)
    (hparse : jsonParse raw = some j)
    (hstruct : isDispatchCommandEvent j = true)
    (hdate : dateParses (toDispatchCommand j).requestedAt = true)
    (hfresh : storeGet store shipUuid = none) :
    dispatchEachMessage dateParses jsonParse msgUuid tidUuid shipUuid now store (some raw) =
      { shipments := store ++
          [(shipUuid,
            { shipmentId := shipUuid
              orderId := (toDispatchCommand j).orderId
              carrier :=
                if (toDispatchCommand j).carrier = "" then "ACME_SHIP"
                else (toDispatchCommand j).carrier
              trackingNumber := makeTrackingNumber tidUuid
              status := ShipmentStatus.CREATED
              cancelledAt := none })]
        replies := [((toDispatchCommand j).orderId,
          { messageId := msgUuid
            requestId := (toDispatchCommand j).requestId
            orderId := (toDispatchCommand j).orderId
            status := ReplyStatus.ACCEPTED
            repliedAt := now
            trackingId := some (makeTrackingNumber tidUuid)
            rejectionReason := none })] } := by
  simp only [dispatchEachMessage, hparse, hstruct, if_true, buildFulfillmentReply, hdate]
  simp only [Bool.true_eq_false, if_false]
  simp only [jsOrOpt, jsOr, if_neg (makeTrackingNumber_ne_empty tidUuid)]
  rw [storeSet_of_storeGet_none _ _ _ hfresh]
  simp

/-- Witness for the C2 theorem at a concrete command. -/
theorem dispatch_accepted_spec_witness :
    dispatchEachMessage (fun _ => true)
        (fun _ => some (Json.obj
          [("messageId", Json.str "m1"), ("requestId", Json.str "r1"),
           ("orderId", Json.str "o-1"), ("carrier", Json.str ""),
           ("requestedAt", Json.str "2024-05-01T00:00:00Z")]))
        "mu-1" "aaaa1111bbbb" "cccc2222dddd" "2024-05-01T00:00:01Z" [] (some "raw") =
      { shipments :=
          [("cccc2222dddd",
            { shipmentId := "cccc2222dddd"
              orderId := "o-1"
              carrier := "ACME_SHIP"
              trackingNumber := makeTrackingNumber "aaaa1111bbbb"
              status := ShipmentStatus.CREATED
              cancelledAt := none })]
        replies := [("o-1",
          { messageId := "mu-1"
            requestId := "r1"
            orderId := "o-1"
            status := ReplyStatus.ACCEPTED
            repliedAt := "2024-05-01T00:00:01Z"
            trackingId := some (makeTrackingNumber "aaaa1111bbbb")
            rejectionReason := none })] } := by
  have h := dispatch_accepted_spec (fun _ => true)
    (fun _ => some (Json.obj
      [("messageId", Json.str "m1"), ("requestId", Json.str "r1"),
       ("orderId", Json.str "o-1"), ("carrier", Json.str ""),
       ("requestedAt", Json.str "2024-05-01T00:00:00Z")]))
    "mu-1" "aaaa1111bbbb" "cccc2222dddd" "2024-05-01T00:00:01Z" "raw"
    (Json.obj
      [("messageId", Json.str "m1"), ("requestId", Json.str "r1"),
       ("orderId", Json.str "o-1"), ("carrier", Json.str ""),
       ("requestedAt", Json.str "2024-05-01T00:00:00Z")]) []
    rfl rfl rfl rfl
  rw [h]
  rfl

/-- Claim C3: for every structurally valid DispatchCommandEvent whose
requestedAt does not parse, the consumer emits exactly one REJECTED reply with
rejectionReason `Invalid requestedAt`, the command's requestId and orderId and
no trackingId, and the shipment store is left unchanged. -/
theorem dispatch_rejected_spec
    (dateParses : String → Bool) (jsonParse : String → Option Json)
    (msgUuid tidUuid shipUuid now raw : String) (j : Json) (store : ShipmentStore)
    (hparse : jsonParse raw = some j)
    (hstruct : isDispatchCommandEvent j = true)
    (hdate : dateParses (toDispatchCommand j).requestedAt = false) :
    dispatchEachMessage dateParses jsonParse msgUuid tidUuid shipUuid now store (some raw) =
      { shipments := store
        replies := [((toDispatchCommand j).orderId,
          { messageId := msgUuid
            requestId := (toDispatchCommand j).requestId
            orderId := (toDispatchCommand j).orderId
            status := ReplyStatus.REJECTED
            repliedAt := now
            trackingId := none
            rejectionReason := some "Invalid requestedAt" })] } := by
  simp only [dispatchEachMessage, hparse, hstruct, if_true, buildFulfillmentReply, hdate]
  simp

/-- Witness for the C3 theorem at the spec's scenario command. -/
theorem dispatch_rejected_spec_witness :
    dispatchEachMessage (fun _ => false)
        (fun _ => some (Json.obj
          [("messageId", Json.str "m1"), ("requestId", Json.str "r1"),
           ("orderId", Json.str "o-2"), ("carrier", Json.str ""),
           ("requestedAt", Json.str "not-a-date")]))
        "mu-2" "aaaa1111bbbb" "cccc2222dddd" "2024-05-01T00:00:01Z" [] (some "raw") =
      { shipments := []
        replies := [("o-2",
          { messageId := "mu-2"
            requestId := "r1"
            orderId := "o-2"
            status := ReplyStatus.REJECTED
            repliedAt := "2024-05-01T00:00:01Z"
            trackingId := none
            rejectionReason := some "Invalid requestedAt" })] } := by
  have h := dispatch_rejected_spec (fun _ => false)
    (fun _ => some (Json.obj
      [("messageId", Json.str "m1"), ("requestId", Json.str "r1"),
       ("orderId", Json.str "o-2"), ("carrier", Json.str ""),
       ("requestedAt", Json.str "not-a-date")]))
    "mu-2" "aaaa1111bbbb" "cccc2222dddd" "2024-05-01T00:00:01Z" "raw"
    (Json.obj
      [("messageId", Json.str "m1"), ("requestId", Json.str "r1"),
       ("orderId", Json.str "o-2"), ("carrier", Json.str ""),
       ("requestedAt", Json.str "not-a-date")]) []
    rfl rfl rfl
  rw [h]
  rfl

/-- Claim C4: every inbound message whose body is absent, unparsable as JSON,
or not a structurally valid DispatchCommandEvent is silently dropped: the
store is unchanged and no reply is emitted. -/
theorem dispatch_malformed_dropped
    (dateParses : String → Bool) (jsonParse : String → Option Json)
    (msgUuid tidUuid shipUuid now : String) (store : ShipmentStore) (value : Option String)
    (hdrop : value = none ∨ ∃ raw, value = some raw ∧
        (jsonParse raw = none ∨
          ∃ j, jsonParse raw = some j ∧ isDispatchCommandEvent j = false)) :
    dispatchEachMessage dateParses jsonParse msgUuid tidUuid shipUuid now store value =
      { shipments := store, replies := [] } := by
  rcases hdrop with rfl | ⟨raw, rfl, hcase⟩
  · rfl
  · rcases hcase with hnone | ⟨j, hsome, hbad⟩
    · simp [dispatchEachMessage, hnone]
    · simp [dispatchEachMessage, hsome, hbad]

/-- Witness for the C4 theorem at a message missing the carrier field. -/
theorem dispatch_malformed_dropped_witness :
    dispatchEachMessage (fun _ => true)
        (fun _ => some (Json.obj
          [("messageId", Json.str "m1"), ("requestId", Json.str "r1"),
           ("orderId", Json.str "o-3"), ("requestedAt", Json.str "2024-05-01T00:00:00Z")]))
        "mu-3" "aaaa1111bbbb" "cccc2222dddd" "t0" [] (some "raw") =
      { shipments := [], replies := [] } := by
  exact dispatch_malformed_dropped (fun _ => true)
    (fun _ => some (Json.obj
      [("messageId", Json.str "m1"), ("requestId", Json.str "r1"),
       ("orderId", Json.str "o-3"), ("requestedAt", Json.str "2024-05-01T00:00:00Z")]))
    "mu-3" "aaaa1111bbbb" "cccc2222dddd" "t0" [] (some "raw")
    (Or.inr ⟨"raw", rfl, Or.inr ⟨Json.obj
      [("messageId", Json.str "m1"), ("requestId", Json.str "r1"),
       ("orderId", Json.str "o-3"), ("requestedAt", Json.str "2024-05-01T00:00:00Z")], rfl, rfl⟩⟩)

/-- Counterexample to claim C1 as stated: a shipment created by an accepted
dispatch command carries a trackingNumber derived from the UUID drawn for the
reply's trackingId, not from its own shipmentId, so the stored record violates
`trackingNumber = makeTrackingNumber shipmentId` at this concrete input. -/
theorem dispatch_trackingNumber_counterexample :
    (storeGet
        (dispatchEachMessage (fun _ => true)
          (fun _ => some (Json.obj
            [("messageId", Json.str "m1"), ("requestId", Json.str "r1"),
             ("orderId", Json.str "o-1"), ("carrier", Json.str ""),
             ("requestedAt", Json.str "2024-05-01T00:00:00Z")]))
          "mu-1" "aaaa1111bbbb" "cccc2222dddd" "t0" [] (some "raw")).shipments
        "cccc2222dddd").map
      (fun sh => sh.trackingNumber == makeTrackingNumber sh.shipmentId) = some false := by
  decide

/-- Claim C1, amended: a shipment created by the HTTP create path has
trackingNumber equal to the derivation applied to its own shipmentId; a
shipment created by an accepted dispatch command instead has trackingNumber
equal to the derivation applied to the fresh UUID drawn for the reply's
trackingId, which is in general different from the shipmentId; in both cases
the trackingNumber is never recomputed or changed after creation (cancellation
preserves it, and nothing else writes to an existing record). -/
theorem trackingNumber_provenance :
    (∀ (shipUuid : String) (store : ShipmentStore) (body : HttpBody) (sh : Shipment),
      storeGet store shipUuid = none →
      storeGet (postShipments shipUuid store body).2 shipUuid = some sh →
      sh.shipmentId = shipUuid ∧ sh.trackingNumber = makeTrackingNumber sh.shipmentId)
    ∧ (∀ (dateParses : String → Bool) (jsonParse : String → Option Json)
        (msgUuid tidUuid shipUuid now : String) (store : ShipmentStore)
        (value : Option String) (sh : Shipment),
      storeGet store shipUuid = none →
      storeGet (dispatchEachMessage dateParses jsonParse msgUuid tidUuid shipUuid now
          store value).shipments shipUuid = some sh →
      sh.shipmentId = shipUuid ∧ sh.trackingNumber = makeTrackingNumber tidUuid)
    ∧ (∀ (now : String) (store : ShipmentStore) (id : String) (sh sh2 : Shipment),
      storeGet store id = some sh →
      storeGet (cancelShipment now store id).2 id = some sh2 →
      sh2.trackingNumber = sh.trackingNumber) := by
  refine ⟨?_, ?_, ?_⟩
  · intro shipUuid store body sh habs hget
    cases body with
    | unparsable =>
      rw [show (postShipments shipUuid store HttpBody.unparsable).2 = store from rfl] at hget
      rw [habs] at hget
      exact absurd hget (by simp)
    | parsed j =>
      by_cases ho : jsStringOrEmpty j "orderId" = ""
      · rw [show (postShipments shipUuid store (HttpBody.parsed j)).2 = store from by
          simp [postShipments, ho]] at hget
        rw [habs] at hget
        exact absurd hget (by simp)
      · by_cases hp : jsStringOrEmpty j "destinationPostalCode" = ""
        · rw [show (postShipments shipUuid store (HttpBody.parsed j)).2 = store from by
            simp [postShipments, ho, hp]] at hget
          rw [habs] at hget
          exact absurd hget (by simp)
        · have hstore : (postShipments shipUuid store (HttpBody.parsed j)).2 =
              storeSet store shipUuid
                { shipmentId := shipUuid
                  orderId := jsStringOrEmpty j "orderId"
                  carrier := "ACME_SHIP"
                  trackingNumber := makeTrackingNumber shipUuid
                  status := ShipmentStatus.CREATED
                  cancelledAt := none } := by
            simp [postShipments, ho, hp]
          rw [hstore, storeGet_storeSet_self] at hget
          cases hget
          exact ⟨rfl, rfl⟩
  · intro dateParses jsonParse msgUuid tidUuid shipUuid now store value sh habs hget
    cases value with
    | none =>
      rw [show (dispatchEachMessage dateParses jsonParse msgUuid tidUuid shipUuid now
          store none).shipments = store from rfl, habs] at hget
      exact absurd hget (by simp)
    | some raw =>
      cases hjp : jsonParse raw with
      | none =>
        rw [show (dispatchEachMessage dateParses jsonParse msgUuid tidUuid shipUuid now
            store (some raw)).shipments = store from by simp [dispatchEachMessage, hjp],
          habs] at hget
        exact absurd hget (by simp)
      | some j =>
        by_cases hstruct : isDispatchCommandEvent j = true
        · by_cases hdate : dateParses (toDispatchCommand j).requestedAt = false
          · rw [show (dispatchEachMessage dateParses jsonParse msgUuid tidUuid shipUuid now
                store (some raw)).shipments = store from by
                simp [dispatchEachMessage, hjp, hstruct, buildFulfillmentReply, hdate],
              habs] at hget
            exact absurd hget (by simp)
          · have hdate2 : dateParses (toDispatchCommand j).requestedAt = true := by
              revert hdate
              cases dateParses (toDispatchCommand j).requestedAt <;> simp
            have hstore : (dispatchEachMessage dateParses jsonParse msgUuid tidUuid shipUuid now
                store (some raw)).shipments =
                storeSet store shipUuid
                  { shipmentId := shipUuid
                    orderId := (toDispatchCommand j).orderId
                    carrier := jsOr (toDispatchCommand j).carrier "ACME_SHIP"
                    trackingNumber := makeTrackingNumber tidUuid
                    status := ShipmentStatus.CREATED
                    cancelledAt := none } := by
              simp only [dispatchEachMessage, hjp, hstruct, if_true, buildFulfillmentReply,
                hdate2]
              simp only [Bool.true_eq_false, if_false]
              simp only [jsOrOpt, jsOr, if_neg (makeTrackingNumber_ne_empty tidUuid)]
              simp
            rw [hstore, storeGet_storeSet_self] at hget
            cases hget
            exact ⟨rfl, rfl⟩
        · rw [show (dispatchEachMessage dateParses jsonParse msgUuid tidUuid shipUuid now
              store (some raw)).shipments = store from by
              simp only [dispatchEachMessage, hjp]
              simp only [Bool.not_eq_true] at hstruct
              simp [hstruct], habs] at hget
          exact absurd hget (by simp)
  · intro now store id sh sh2 hsh hget
    have hstore : (cancelShipment now store id).2 =
        storeSet store id
          { sh with status := ShipmentStatus.CANCELLED, cancelledAt := some now } := by
      simp [cancelShipment, hsh]
    rw [hstore, storeGet_storeSet_self] at hget
    cases hget
    rfl

/-- Witness for the amended C1 theorem at a concrete HTTP create request. -/
theorem trackingNumber_provenance_witness :
    storeGet ([] : ShipmentStore) "aaaa1111bbbb" = none ∧
    ({ shipmentId := "aaaa1111bbbb", orderId := "o-1", carrier := "ACME_SHIP",
       trackingNumber := makeTrackingNumber "aaaa1111bbbb",
       status := ShipmentStatus.CREATED, cancelledAt := none } : Shipment).shipmentId =
        "aaaa1111bbbb" ∧
    ({ shipmentId := "aaaa1111bbbb", orderId := "o-1", carrier := "ACME_SHIP",
       trackingNumber := makeTrackingNumber "aaaa1111bbbb",
       status := ShipmentStatus.CREATED, cancelledAt := none } : Shipment).trackingNumber =
      makeTrackingNumber
        ({ shipmentId := "aaaa1111bbbb", orderId := "o-1", carrier := "ACME_SHIP",
           trackingNumber := makeTrackingNumber "aaaa1111bbbb",
           status := ShipmentStatus.CREATED, cancelledAt := none } : Shipment).shipmentId := by
  refine ⟨rfl, ?_⟩
  exact trackingNumber_provenance.1 "aaaa1111bbbb" []
    (HttpBody.parsed (Json.obj
      [("orderId", Json.str "o-1"), ("destinationPostalCode", Json.str "10001")]))
    { shipmentId := "aaaa1111bbbb", orderId := "o-1", carrier := "ACME_SHIP",
      trackingNumber := makeTrackingNumber "aaaa1111bbbb",
      status := ShipmentStatus.CREATED, cancelledAt := none }
    rfl rfl

/-- Counterexample to claim C5 as stated: with an empty store and no filter the
list route does not return the empty set of stored records — it synthesizes a
placeholder record. -/
theorem listShipments_empty_store_counterexample :
    (listShipments "p-1" "q-1" [] none).2 ≠ [] := by
  decide

/-- Claim C5, amended: the list route returns all stored records in insertion
order, filtered by orderId when a non-empty filter is supplied; whenever the
store is empty (with or without a filter) it synthesizes a single placeholder
record, whose orderId is the filter when one is supplied and `order-default`
otherwise. -/
theorem listShipments_spec (p t : String) (store : ShipmentStore) (oid : String) :
    ((listShipments p t store none).1 = 200)
    ∧ ((listShipments p t store (some oid)).1 = 200)
    ∧ (store ≠ [] →
        (listShipments p t store none).2 = (store.map (fun x => x.2)).map toShipmentView)
    ∧ (store ≠ [] → oid ≠ "" →
        (listShipments p t store (some oid)).2 =
          ((store.map (fun x => x.2)).filter (fun sh => sh.orderId == oid)).map toShipmentView)
    ∧ ((listShipments p t [] none).2.map (fun v => v.orderId) = ["order-default"])
    ∧ (oid ≠ "" → (listShipments p t [] (some oid)).2.map (fun v => v.orderId) = [oid]) := by
  refine ⟨rfl, rfl, ?_, ?_, ?_, ?_⟩
  · intro h
    simp [listShipments, List.length_eq_zero, h]
  · intro h hoid
    simp [listShipments, List.length_eq_zero, h, hoid]
  · simp [listShipments, jsOrOpt, toShipmentView]
  · intro hoid
    simp [listShipments, jsOrOpt, jsOr, hoid, toShipmentView]

/-- Witness for the amended C5 theorem at a concrete one-record store and at
the empty store. -/
theorem listShipments_spec_witness :
    ([("s1", buildDefaultShipment "s1")] : ShipmentStore) ≠ []
    ∧ (listShipments "p-1" "q-1" [("s1", buildDefaultShipment "s1")] none).2 =
        ([("s1", buildDefaultShipment "s1")].map
          (fun x => x.2)).map toShipmentView
    ∧ ("o-7" : String) ≠ ""
    ∧ (listShipments "p-1" "q-1" [] (some "o-7")).2.map (fun v => v.orderId) = ["o-7"] := by
  refine ⟨by decide, ?_, by decide, ?_⟩
  · exact (listShipments_spec "p-1" "q-1" [("s1", buildDefaultShipment "s1")] "").2.2.1
      (by decide)
  · exact (listShipments_spec "p-1" "q-1" [] "o-7").2.2.2.2.2 (by decide)

/-- Claim C6: GET on a single shipmentId always answers 200 — with the stored
record's view when present, otherwise with a synthesized default whose orderId
is `order-` + shipmentId, carrier `ACME_SHIP`, status IN_TRANSIT and
trackingNumber derived from the shipmentId; a not-found error is never
returned. -/
theorem getShipmentById_spec (store : ShipmentStore) (id : String) :
    ((getShipmentById store id).1 = 200)
    ∧ (∀ sh, storeGet store id = some sh → (getShipmentById store id).2 = toShipmentView sh)
    ∧ (storeGet store id = none →
        (getShipmentById store id).2 =
          { shipmentId := id, orderId := "order-" ++ id, carrier := "ACME_SHIP",
            trackingNumber := makeTrackingNumber id, status := ShipmentStatus.IN_TRANSIT,
            cancelledAt := none }) := by
  refine ⟨rfl, ?_, ?_⟩
  · intro sh h
    simp [getShipmentById, h]
  · intro h
    simp [getShipmentById, h, buildDefaultShipment, toShipmentView]

/-- Witness for the C6 theorem at an unknown id over the empty store. -/
theorem getShipmentById_spec_witness :
    storeGet ([] : ShipmentStore) "zz-1" = none
    ∧ (getShipmentById [] "zz-1").1 = 200
    ∧ (getShipmentById [] "zz-1").2 =
        { shipmentId := "zz-1", orderId := "order-zz-1", carrier := "ACME_SHIP",
          trackingNumber := makeTrackingNumber "zz-1", status := ShipmentStatus.IN_TRANSIT,
          cancelledAt := none } := by
  refine ⟨rfl, (getShipmentById_spec [] "zz-1").1, ?_⟩
  exact (getShipmentById_spec [] "zz-1").2.2 rfl

theorem storeGet_cancelShipment_of_some (now : String) (store : ShipmentStore) (id : String)
    (ex : Shipment) (hex : storeGet store id = some ex) :
    storeGet (cancelShipment now store id).2 id =
      some { ex with status := ShipmentStatus.CANCELLED, cancelledAt := some now } := by
  have h2 : (cancelShipment now store id).2 =
      storeSet store id { ex with status := ShipmentStatus.CANCELLED, cancelledAt := some now } := by
    simp only [cancelShipment, hex]
  rw [h2]
  exact storeGet_storeSet_self _ _ _

/-- Claim C7: cancellation is idempotent on status and terminal — cancelling
twice yields a stored record with status CANCELLED after each application, the
second application re-stamps cancelledAt to the later timestamp, and the other
fields (shipmentId, orderId, carrier, trackingNumber) are unchanged by the
re-cancellation. -/
theorem cancelShipment_idempotent (now1 now2 : String) (store : ShipmentStore) (id : String)
    (h : now1 ≤ now2) :
    ((cancelShipment now1 store id).1.status = 200)
    ∧ ((cancelShipment now2 (cancelShipment now1 store id).2 id).1.status = 200)
    ∧ ∃ c1 c2,
        storeGet (cancelShipment now1 store id).2 id = some c1
        ∧ storeGet (cancelShipment now2 (cancelShipment now1 store id).2 id).2 id = some c2
        ∧ c1.status = ShipmentStatus.CANCELLED
        ∧ c2.status = ShipmentStatus.CANCELLED
        ∧ c1.cancelledAt = some now1
        ∧ c2.cancelledAt = some (max now1 now2)
        ∧ c2.shipmentId = c1.shipmentId
        ∧ c2.orderId = c1.orderId
        ∧ c2.carrier = c1.carrier
        ∧ c2.trackingNumber = c1.trackingNumber := by
  have hmax : max now1 now2 = now2 := max_eq_right h
  obtain ⟨c1, hg1, hst1, hca1⟩ :
      ∃ c1, storeGet (cancelShipment now1 store id).2 id = some c1
        ∧ c1.status = ShipmentStatus.CANCELLED ∧ c1.cancelledAt = some now1 :=
    ⟨_, storeGet_storeSet_self store id _, rfl, rfl⟩
  have hg2 := storeGet_cancelShipment_of_some now2 (cancelShipment now1 store id).2 id c1 hg1
  exact ⟨rfl, rfl, c1, { c1 with status := ShipmentStatus.CANCELLED, cancelledAt := some now2 },
    hg1, hg2, hst1, rfl, hca1, by rw [hmax], rfl, rfl, rfl, rfl⟩

/-- Witness for the C7 theorem at a concrete id and increasing timestamps. -/
theorem cancelShipment_idempotent_witness :
    ("2024-05-01T00:00:00Z" : String) ≤ "2024-05-02T00:00:00Z"
    ∧ (((cancelShipment "2024-05-01T00:00:00Z" [] "s1").1.status = 200)
      ∧ ((cancelShipment "2024-05-02T00:00:00Z"
            (cancelShipment "2024-05-01T00:00:00Z" [] "s1").2 "s1").1.status = 200)
      ∧ ∃ c1 c2,
          storeGet (cancelShipment "2024-05-01T00:00:00Z" [] "s1").2 "s1" = some c1
          ∧ storeGet (cancelShipment "2024-05-02T00:00:00Z"
              (cancelShipment "2024-05-01T00:00:00Z" [] "s1").2 "s1").2 "s1" = some c2
          ∧ c1.status = ShipmentStatus.CANCELLED
          ∧ c2.status = ShipmentStatus.CANCELLED
          ∧ c1.cancelledAt = some "2024-05-01T00:00:00Z"
          ∧ c2.cancelledAt = some (max "2024-05-01T00:00:00Z" "2024-05-02T00:00:00Z")
          ∧ c2.shipmentId = c1.shipmentId
          ∧ c2.orderId = c1.orderId
          ∧ c2.carrier = c1.carrier
          ∧ c2.trackingNumber = c1.trackingNumber) := by
  have hle : ("2024-05-01T00:00:00Z" : String) ≤ "2024-05-02T00:00:00Z" := by
    rw [String.le_iff_toList_le]
    decide
  exact ⟨hle, cancelShipment_idempotent "2024-05-01T00:00:00Z" "2024-05-02T00:00:00Z" [] "s1" hle⟩

/-- Claim C10: cancelling a shipmentId that was never created succeeds with
200 and persists a brand-new record under that id — status CANCELLED,
cancelledAt stamped, orderId `order-` + id, carrier `ACME_SHIP`,
trackingNumber derived from the id — growing the store by one entry. -/
theorem cancelShipment_absent_creates (now : String) (store : ShipmentStore) (id : String)
    (h : storeGet store id = none) :
    ((cancelShipment now store id).1.status = 200)
    ∧ (cancelShipment now store id).2 = store ++
        [(id, { shipmentId := id, orderId := "order-" ++ id, carrier := "ACME_SHIP",
                trackingNumber := makeTrackingNumber id, status := ShipmentStatus.CANCELLED,
                cancelledAt := some now })]
    ∧ ((cancelShipment now store id).2).length = store.length + 1 := by
  have hstore : (cancelShipment now store id).2 = store ++
      [(id, { shipmentId := id, orderId := "order-" ++ id, carrier := "ACME_SHIP",
              trackingNumber := makeTrackingNumber id, status := ShipmentStatus.CANCELLED,
              cancelledAt := some now })] := by
    have h2 : (cancelShipment now store id).2 =
        storeSet store id
          { buildDefaultShipment id with
            status := ShipmentStatus.CANCELLED, cancelledAt := some now } := by
      simp only [cancelShipment, h]
    rw [h2, storeSet_of_storeGet_none _ _ _ h]
    rfl
  refine ⟨rfl, hstore, ?_⟩
  rw [hstore]
  simp

/-- Witness for the C10 theorem at a concrete never-created id. -/
theorem cancelShipment_absent_creates_witness :
    storeGet ([] : ShipmentStore) "s9" = none
    ∧ ((cancelShipment "2024-05-01T00:00:00Z" [] "s9").1.status = 200)
    ∧ (cancelShipment "2024-05-01T00:00:00Z" [] "s9").2 = [] ++
        [("s9", { shipmentId := "s9", orderId := "order-s9", carrier := "ACME_SHIP",
                  trackingNumber := makeTrackingNumber "s9",
                  status := ShipmentStatus.CANCELLED,
                  cancelledAt := some "2024-05-01T00:00:00Z" })]
    ∧ ((cancelShipment "2024-05-01T00:00:00Z" [] "s9").2).length =
        ([] : ShipmentStore).length + 1 := by
  exact ⟨rfl, cancelShipment_absent_creates "2024-05-01T00:00:00Z" [] "s9" rfl⟩

/-- Claim C8: a create request whose body has non-empty string orderId and
destinationPostalCode (after trimming) answers 201 with a view of status
CREATED and a trackingNumber of the form `TRK-` + 12 uppercase hex characters
(given the UUID shape of the generated shipmentId), and the created record is
stored; a request with a missing, empty or non-string field, or an unparsable
body, answers 400 with an error object and leaves the store unchanged. -/
theorem postShipments_spec (shipUuid : String) (store : ShipmentStore) (j : Json) :
    ((UuidLike shipUuid →
      jsStringOrEmpty j "orderId" ≠ "" →
      jsStringOrEmpty j "destinationPostalCode" ≠ "" →
        (postShipments shipUuid store (HttpBody.parsed j)).1.status = 201
        ∧ (postShipments shipUuid store (HttpBody.parsed j)).1.view =
            some { shipmentId := shipUuid
                   orderId := jsStringOrEmpty j "orderId"
                   carrier := "ACME_SHIP"
                   trackingNumber := makeTrackingNumber shipUuid
                   status := ShipmentStatus.CREATED
                   cancelledAt := none }
        ∧ isTrkPattern (makeTrackingNumber shipUuid) = true
        ∧ storeGet (postShipments shipUuid store (HttpBody.parsed j)).2 shipUuid =
            some { shipmentId := shipUuid
                   orderId := jsStringOrEmpty j "orderId"
                   carrier := "ACME_SHIP"
                   trackingNumber := makeTrackingNumber shipUuid
                   status := ShipmentStatus.CREATED
                   cancelledAt := none })
    ∧ (jsStringOrEmpty j "orderId" = "" ∨ jsStringOrEmpty j "destinationPostalCode" = "" →
        (postShipments shipUuid store (HttpBody.parsed j)).1.status = 400
        ∧ (postShipments shipUuid store (HttpBody.parsed j)).1.error.isSome = true
        ∧ (postShipments shipUuid store (HttpBody.parsed j)).2 = store)
    ∧ ((postShipments shipUuid store HttpBody.unparsable).1.status = 400
        ∧ (postShipments shipUuid store HttpBody.unparsable).1.error.isSome = true
        ∧ (postShipments shipUuid store HttpBody.unparsable).2 = store)) := by
  refine ⟨?_, ?_, rfl, rfl, rfl⟩
  · intro huuid ho hp
    have h1 : (postShipments shipUuid store (HttpBody.parsed j)).1 =
        { status := 201,
          view := some { shipmentId := shipUuid
                         orderId := jsStringOrEmpty j "orderId"
                         carrier := "ACME_SHIP"
                         trackingNumber := makeTrackingNumber shipUuid
                         status := ShipmentStatus.CREATED
                         cancelledAt := none },
          error := none } := by
      simp [postShipments, ho, hp, toShipmentView]
    have h2 : (postShipments shipUuid store (HttpBody.parsed j)).2 =
        storeSet store shipUuid
          { shipmentId := shipUuid
            orderId := jsStringOrEmpty j "orderId"
            carrier := "ACME_SHIP"
            trackingNumber := makeTrackingNumber shipUuid
            status := ShipmentStatus.CREATED
            cancelledAt := none } := by
      simp [postShipments, ho, hp]
    refine ⟨by rw [h1], by rw [h1], isTrkPattern_makeTrackingNumber shipUuid huuid, ?_⟩
    rw [h2]
    exact storeGet_storeSet_self _ _ _
  · intro hbad
    rcases hbad with ho | hp
    · exact ⟨by simp [postShipments, ho], by simp [postShipments, ho], by simp [postShipments, ho]⟩
    · by_cases ho : jsStringOrEmpty j "orderId" = ""
      · exact ⟨by simp [postShipments, ho], by simp [postShipments, ho],
          by simp [postShipments, ho]⟩
      · exact ⟨by simp [postShipments, ho, hp], by simp [postShipments, ho, hp],
          by simp [postShipments, ho, hp]⟩

/-- Witness for the C8 theorem at the spec's scenario request, with a
canonical-shape UUID. -/
theorem postShipments_spec_witness :
    UuidLike "0f8fad5b-d9cb-469f-a165-70867728950e"
    ∧ jsStringOrEmpty (Json.obj
        [("orderId", Json.str "o-1"), ("destinationPostalCode", Json.str "10001")])
        "orderId" ≠ ""
    ∧ jsStringOrEmpty (Json.obj
        [("orderId", Json.str "o-1"), ("destinationPostalCode", Json.str "10001")])
        "destinationPostalCode" ≠ ""
    ∧ (postShipments "0f8fad5b-d9cb-469f-a165-70867728950e" []
        (HttpBody.parsed (Json.obj
          [("orderId", Json.str "o-1"), ("destinationPostalCode", Json.str "10001")]))).1.status
        = 201
    ∧ isTrkPattern (makeTrackingNumber "0f8fad5b-d9cb-469f-a165-70867728950e") = true := by
  have huuid : UuidLike "0f8fad5b-d9cb-469f-a165-70867728950e" := by
    constructor
    · decide
    · decide
  have h := (postShipments_spec "0f8fad5b-d9cb-469f-a165-70867728950e" []
    (Json.obj [("orderId", Json.str "o-1"), ("destinationPostalCode", Json.str "10001")])).1
    huuid (by decide) (by decide)
  exact ⟨huuid, by decide, by decide, h.1, h.2.2.1⟩

/-- Claim C9: in every run of the notification publisher in which at least one
terminating edge fires — the publish acknowledgment, a connect error, the
timeout, or several of them — the connection teardown executes exactly once,
and the operation returns no error to its caller (its caller-visible result is
the unit value). -/
theorem publishAnalyticsNotification_teardown_once
    (edges : List AnalyticsPublisher.PublishEdge) (h : edges ≠ []) :
    (AnalyticsPublisher.publishAnalyticsNotification edges).1 = ()
    ∧ ((AnalyticsPublisher.publishAnalyticsNotification edges).2).teardowns = 1 := by
  refine ⟨rfl, ?_⟩
  cases edges with
  | nil => exact absurd rfl h
  | cons e rest =>
    show ((e :: rest).foldl AnalyticsPublisher.handleEdge
      AnalyticsPublisher.initialState).teardowns = 1
    rw [List.foldl_cons]
    have h1 := AnalyticsPublisher.handleEdge_completed AnalyticsPublisher.initialState e
    have h2 := AnalyticsPublisher.handleEdge_teardowns AnalyticsPublisher.initialState e
    have h3 := AnalyticsPublisher.foldl_handleEdge_frozen rest _ h1
    rw [h3.2, h2]
    rfl

/-- Witness for the C9 theorem at a run in which the timeout fires and then a
late connect error also fires. -/
theorem publishAnalyticsNotification_teardown_once_witness :
    ([AnalyticsPublisher.PublishEdge.timeoutFired,
      AnalyticsPublisher.PublishEdge.connectError "connection refused"] ≠
        ([] : List AnalyticsPublisher.PublishEdge))
    ∧ (AnalyticsPublisher.publishAnalyticsNotification
        [AnalyticsPublisher.PublishEdge.timeoutFired,
         AnalyticsPublisher.PublishEdge.connectError "connection refused"]).1 = ()
    ∧ ((AnalyticsPublisher.publishAnalyticsNotification
        [AnalyticsPublisher.PublishEdge.timeoutFired,
         AnalyticsPublisher.PublishEdge.connectError "connection refused"]).2).teardowns = 1 := by
  have hne : ([AnalyticsPublisher.PublishEdge.timeoutFired,
      AnalyticsPublisher.PublishEdge.connectError "connection refused"] ≠
        ([] : List AnalyticsPublisher.PublishEdge)) := by
    intro hcontra
    exact List.cons_ne_nil _ _ hcontra
  exact ⟨hne, publishAnalyticsNotification_teardown_once _ hne⟩
